import Mathlib

/-!
Shallow embedding of `src/providers/twelve_labs.py` (class `TwelveLabsHandler`).

External collaborators (the TwelveLabs SDK, `pydantic_core.from_json`,
pydantic model validation, prompt templates) are consumed by the source only
through their public interface; they are modelled here as explicit
parameters (oracles) of the embedded functions.  Every control-flow
decision, string manipulation, queue push, state assignment, log line and
exception path of the source itself is embedded concretely.
-/

/-- JSON-like values: the shape of the objects handed to `json.dumps` and of
`model_dump()` results.  Object fields are kept in insertion order, as
Python dicts keep them. -/
inductive JVal where
  | jnull
  | jbool (b : Bool)
  | jnum (n : Int)
  | jstr (s : String)
  | jarr (xs : List JVal)
  | jobj (kvs : List (String × JVal))

/-- A Python exception value: its class name and its message. -/
structure PyExc where
  cls : String
  msg : String
deriving DecidableEq, Repr

/-- Outcome of running a Python function: a returned value or a raised
exception. -/
inductive PyResult (α : Type) where
  | ret (v : α)
  | raise (e : PyExc)

/-- Python values, as far as the `chapters` argument of
`generate_quiz_questions` needs them. -/
inductive PyVal where
  | vnone
  | vbool (b : Bool)
  | vint (n : Int)
  | vstr (s : String)
  | vlist (xs : List PyVal)
  | vdict (kvs : List (String × PyVal))

/-- Python truthiness, `bool(v)`. -/
def truthy : PyVal → Bool
  | .vnone => false
  | .vbool b => b
  | .vint n => n != 0
  | .vstr s => s != ""
  | .vlist xs => !xs.isEmpty
  | .vdict kvs => !kvs.isEmpty

/-- Python `isinstance(v, list)`. -/
def is_list_value : PyVal → Bool
  | .vlist _ => true
  | _ => false

/-- Python `len(v)` on lists; in the source it is evaluated only after the
`isinstance(chapters, list)` check has already passed or short-circuited. -/
def py_len : PyVal → Nat
  | .vlist xs => xs.length
  | _ => 0

/-- The element list of a `vlist`; in the source this view is only taken
behind the list guard. -/
def py_list_items : PyVal → List PyVal
  | .vlist xs => xs
  | _ => []

/-- Python subscripting `v[key]` with a string key: dict lookup, raising
`KeyError` on a missing key and `TypeError` on a non-dict value. -/
def py_subscript (v : PyVal) (key : String) : Except PyExc PyVal :=
  match v with
  | .vdict kvs =>
    match List.lookup key kvs with
    | some x => .ok x
    | none => .error ⟨"KeyError", key⟩
  | _ => .error ⟨"TypeError", "value is not subscriptable by a string key"⟩

/-- Python `str(v)` as used inside the f-string that builds a chapter line.
Container rendering is abbreviated: the resulting prompt text is consumed
only by the excluded provider. -/
def py_str_of : PyVal → String
  | .vnone => "None"
  | .vbool b => if b then "True" else "False"
  | .vint n => toString n
  | .vstr s => s
  | .vlist _ => "[...]"
  | .vdict _ => "\x7b...\x7d"

/-- One pass of Python `s.replace(pat, "")` for a non-empty pattern
`p0 :: ps`: remove every non-overlapping occurrence, scanning left to
right.  Fuel-indexed structural recursion; fuel `s.length` always
suffices because each step consumes at least one character. -/
def removeOccsAux (p0 : Char) (ps : List Char) : Nat → List Char → List Char
  | 0, s => s
  | _ + 1, [] => []
  | fuel + 1, c :: cs =>
    if c == p0 && ps.isPrefixOf cs then removeOccsAux p0 ps fuel (cs.drop ps.length)
    else c :: removeOccsAux p0 ps fuel cs

/-- Python `s.replace(pat, "")`. -/
def py_replace_empty (s pat : String) : String :=
  match pat.data with
  | [] => s
  | p :: ps => String.mk (removeOccsAux p ps s.data.length s.data)

/-- The fence-stripping expression of line 99 of the source,
`response.data.replace("```json", "").replace("```", "")`. -/
def cleaned_data_string (s : String) : String :=
  py_replace_empty (py_replace_empty s "```json") "```"

/-- The object returned by `twelve_labs_client.analyze`; only its `.data`
text is consumed by the source. -/
structure AnalyzeResponse where
  data : String
deriving DecidableEq, Repr

/-- Behaviour of one provider `analyze` call: it either returns a response
or raises with a message. -/
inductive AnalyzeOutcome where
  | ok (resp : AnalyzeResponse)
  | raises (msg : String)
deriving DecidableEq, Repr

/-- Oracle for `pydantic_core.from_json(text, allow_partial=True)`: an
external permissive parser taking the cleaned text to a JSON value or to a
parse error. -/
abbrev FromJson := String → Except String JVal

/-- An expected output shape (one of the `data_schema.*Schema` classes):
its class name (read as `__name__` in the log line) and the composite
`model_validate(...)` followed by `.model_dump()`, modelled as an oracle
from the parsed JSON value to the dumped plain mapping or to a validation
error. -/
structure Schema where
  schemaName : String
  model_validate_dump : JVal → Except String (List (String × JVal))

/-- Result value of `_prompt_llm`: the validated `model_dump()` mapping, or
the raw provider response object. -/
inductive PromptRet where
  | mapping (d : List (String × JVal))
  | raw (resp : AnalyzeResponse)

/-- Observable outcome of `_prompt_llm`: the returned value or the raised
exception, plus the lines printed (the source logs via `print`). -/
structure PromptOut where
  result : PyResult PromptRet
  logged : List String

/-- Shallow embedding of `_prompt_llm` (source lines 89-107).  Under
`try`: call `analyze`, strip code fences from `response.data`, parse with
`from_json(..., allow_partial=True)`, `model_validate` against the shape
and return the `model_dump()`.  Under `except`: print the error and then
`return response` — when `analyze` itself raised, the local `response` was
never bound, so this fallback line raises `NameError`. -/
def prompt_llm (fj : FromJson) (schema : Schema) (az : AnalyzeOutcome) : PromptOut :=
  match az with
  | .raises m =>
    { result := .raise ⟨"NameError", "name response is not defined"⟩,
      logged := ["Error generating " ++ schema.schemaName ++ ": " ++ m] }
  | .ok response =>
    match fj (cleaned_data_string response.data) with
    | .ok parsed =>
      match schema.model_validate_dump parsed with
      | .ok dump => { result := .ret (.mapping dump), logged := [] }
      | .error e =>
        { result := .ret (.raw response),
          logged := ["Error generating " ++ schema.schemaName ++ ": " ++ e] }
    | .error e =>
      { result := .ret (.raw response),
        logged := ["Error generating " ++ schema.schemaName ++ ": " ++ e] }

/-- The per-instance cache fields initialised in `__init__` (source lines
26-35), plus `engagement`, which `generate_engagement` creates on first
assignment.  `title`, `hashtags` and `topics` hold gist components; the
remaining fields hold the raw result of the corresponding `generate_*`
call. -/
structure HandlerState where
  title : Option String
  hashtags : Option (List String)
  topics : Option (List String)
  summary : Option String
  key_takeaways : Option PromptRet
  pacing_recommendations : Option PromptRet
  chapters : Option PromptRet
  quiz_questions : Option PromptRet
  flashcards : Option PromptRet
  engagement : Option PromptRet

/-- The state `__init__` leaves behind: every cache field is `None`. -/
def init_state : HandlerState :=
  { title := none, hashtags := none, topics := none, summary := none,
    key_takeaways := none, pacing_recommendations := none, chapters := none,
    quiz_questions := none, flashcards := none, engagement := none }

/-- Observable outcome of one `generate_*` method: returned value or raised
exception, final instance state, printed log lines. -/
structure GenOut where
  result : PyResult PromptRet
  state : HandlerState
  logged : List String

/-- Shallow embedding of `generate_chapters` (source lines 136-158).  Under
`try`: call `_prompt_llm`, store the result into `self.chapters`, return
it.  Under `except`: print, then `return raw_chapters` — the local is
unbound exactly when `_prompt_llm` raised, so the fallback raises
`NameError`. -/
def generate_chapters (st : HandlerState) (fj : FromJson) (schema : Schema)
    (az : AnalyzeOutcome) : GenOut :=
  let p := prompt_llm fj schema az
  match p.result with
  | .ret raw_chapters =>
    { result := .ret raw_chapters,
      state := { st with chapters := some raw_chapters },
      logged := p.logged }
  | .raise e =>
    { result := .raise ⟨"NameError", "name raw_chapters is not defined"⟩,
      state := st,
      logged := p.logged ++ ["Error generating chapters: " ++ e.msg] }

/-- Shallow embedding of `generate_key_takeaways` (source lines 160-179),
same shape as `generate_chapters` with the `key_takeaways` field and the
unbound local `raw_key_takeaways`. -/
def generate_key_takeaways (st : HandlerState) (fj : FromJson) (schema : Schema)
    (az : AnalyzeOutcome) : GenOut :=
  let p := prompt_llm fj schema az
  match p.result with
  | .ret raw_key_takeaways =>
    { result := .ret raw_key_takeaways,
      state := { st with key_takeaways := some raw_key_takeaways },
      logged := p.logged }
  | .raise e =>
    { result := .raise ⟨"NameError", "name raw_key_takeaways is not defined"⟩,
      state := st,
      logged := p.logged ++ ["Error generating key takeaways: " ++ e.msg] }

/-- Shallow embedding of `generate_pacing_recommendations` (source lines
181-200), same shape with the `pacing_recommendations` field. -/
def generate_pacing_recommendations (st : HandlerState) (fj : FromJson)
    (schema : Schema) (az : AnalyzeOutcome) : GenOut :=
  let p := prompt_llm fj schema az
  match p.result with
  | .ret raw_pacing_recommendations =>
    { result := .ret raw_pacing_recommendations,
      state := { st with pacing_recommendations := some raw_pacing_recommendations },
      logged := p.logged }
  | .raise e =>
    { result := .raise ⟨"NameError", "name raw_pacing_recommendations is not defined"⟩,
      state := st,
      logged := p.logged ++ ["Error generating pacing recommendations: " ++ e.msg] }

/-- Shallow embedding of `generate_engagement` (source lines 234-253), same
shape with the `engagement` field. -/
def generate_engagement (st : HandlerState) (fj : FromJson) (schema : Schema)
    (az : AnalyzeOutcome) : GenOut :=
  let p := prompt_llm fj schema az
  match p.result with
  | .ret raw_engagement =>
    { result := .ret raw_engagement,
      state := { st with engagement := some raw_engagement },
      logged := p.logged }
  | .raise e =>
    { result := .raise ⟨"NameError", "name raw_engagement is not defined"⟩,
      state := st,
      logged := p.logged ++ ["Error generating engagement: " ++ e.msg] }

/-- The f-string of source line 217 for one element of `chapters`; it
raises whatever the two subscripts raise, trying `title` first. -/
def chapter_line (c : PyVal) : Except PyExc String :=
  match py_subscript c "title" with
  | .error e => .error e
  | .ok t =>
    match py_subscript c "summary" with
    | .error e => .error e
    | .ok s => .ok (py_str_of t ++ ": " ++ py_str_of s)

/-- The list comprehension of source line 217, evaluated left to right; the
first failing element raises. -/
def chapter_lines : List PyVal → Except PyExc (List String)
  | [] => .ok []
  | c :: cs =>
    match chapter_line c with
    | .error e => .error e
    | .ok l =>
      match chapter_lines cs with
      | .error e => .error e
      | .ok ls => .ok (l :: ls)

/-- Observable outcome of `generate_quiz_questions`; `providerCalled`
records whether control reached the provider-backed `_prompt_llm` call. -/
structure QuizOut where
  result : PyResult PromptRet
  state : HandlerState
  providerCalled : Bool
  logged : List String

/-- Shallow embedding of `generate_quiz_questions` (source lines 203-232).
Outside any `try`: the precondition check raises when `chapters` is falsy,
not a list, or of length zero; the chapter-line comprehension raises on
records missing `title` or `summary`.  Then, under `try`: call
`_prompt_llm` with the formatted prompt, store into `self.quiz_questions`,
return; under `except`: print and `return raw_quiz_questions` (unbound
exactly when `_prompt_llm` raised, so the fallback raises `NameError`). -/
def generate_quiz_questions (st : HandlerState) (chapters : PyVal)
    (fj : FromJson) (schema : Schema) (az : AnalyzeOutcome) : QuizOut :=
  if !truthy chapters || !is_list_value chapters || py_len chapters == 0 then
    { result := .raise ⟨"Exception", "Chapters must be a non-empty list"⟩,
      state := st, providerCalled := false, logged := [] }
  else
    match chapter_lines (py_list_items chapters) with
    | .error e =>
      { result := .raise e, state := st, providerCalled := false, logged := [] }
    | .ok _lines =>
      let p := prompt_llm fj schema az
      match p.result with
      | .ret raw_quiz_questions =>
        { result := .ret raw_quiz_questions,
          state := { st with quiz_questions := some raw_quiz_questions },
          providerCalled := true, logged := p.logged }
      | .raise e =>
        { result := .raise ⟨"NameError", "name raw_quiz_questions is not defined"⟩,
          state := st, providerCalled := true,
          logged := p.logged ++ ["Error generating quiz questions: " ++ e.msg] }

/-- Behaviour of one provider `summarize` call: the `.summary` text of its
result, or a raise with a message. -/
inductive SummarizeOutcome where
  | ok (summary : String)
  | raises (msg : String)
deriving DecidableEq, Repr

/-- Shallow embedding of `generate_summary` (source lines 109-133): on
success return the mapping with the single key `summary` without touching
any cache field; on provider failure re-raise
`Exception(f"Error generating summary: ...")`. -/
def generate_summary (st : HandlerState) (call : SummarizeOutcome) :
    PyResult JVal × HandlerState :=
  match call with
  | .ok s => (.ret (.jobj [("summary", .jstr s)]), st)
  | .raises m => (.raise ⟨"Exception", "Error generating summary: " ++ m⟩, st)

/-- The object returned by the provider `gist` call. -/
structure GistResult where
  title : String
  hashtags : List String
  topics : List String
deriving DecidableEq, Repr

/-- Behaviour of one provider `gist` call. -/
inductive GistOutcome where
  | ok (g : GistResult)
  | raises (msg : String)
deriving DecidableEq, Repr

/-- Shallow embedding of `generate_gist` (source lines 255-281): on success
store `title`, `hashtags` and `topics` into the instance fields and return
them as a mapping; on failure re-raise
`Exception(f"Error generating gist: ...")`. -/
def generate_gist (st : HandlerState) (call : GistOutcome) :
    PyResult JVal × HandlerState :=
  match call with
  | .ok g =>
    (.ret (.jobj [("title", .jstr g.title),
                  ("hashtags", .jarr (g.hashtags.map JVal.jstr)),
                  ("topics", .jarr (g.topics.map JVal.jstr))]),
     { st with title := some g.title, hashtags := some g.hashtags,
               topics := some g.topics })
  | .raises m => (.raise ⟨"Exception", "Error generating gist: " ++ m⟩, st)

/-- The in-progress envelope pushed per chunk (source lines 68-72), as the
object handed to `json.dumps`. -/
def in_progress_envelope (stream_type chunk : String) : JVal :=
  .jobj [("type", .jstr stream_type), ("content", .jstr chunk),
         ("status", .jstr "in_progress")]

/-- The completion envelope (source lines 74-78). -/
def complete_envelope (stream_type : String) : JVal :=
  .jobj [("type", .jstr stream_type), ("chunk", .jnull),
         ("status", .jstr "complete")]

/-- The error envelope (source lines 82-87). -/
def error_envelope (stream_type err : String) : JVal :=
  .jobj [("type", .jstr stream_type), ("chunk", .jnull),
         ("status", .jstr "error"), ("error", .jstr err)]

/-- Behaviour of one `analyze_stream` iteration: the chunks it yields, then
either normal exhaustion (`failMsg = none`) or an exception with the given
message (`failMsg = some m`; the case of the `analyze_stream` call itself
raising is `chunks = []` with a `failMsg`). -/
structure StreamGen where
  chunks : List String
  failMsg : Option String

/-- The `for chunk in coroutine` loop of `_process_coroutine`: push one
in-progress envelope per chunk, in order, onto the queue (modelled as the
list of already-queued messages). -/
def put_in_progress_loop (stream_type : String) :
    List String → List JVal → List JVal
  | [], queue => queue
  | c :: cs, queue =>
    put_in_progress_loop stream_type cs
      (queue ++ [in_progress_envelope stream_type c])

/-- Shallow embedding of `_process_coroutine` (source lines 52-87).  Under
`try`: iterate the stream pushing in-progress envelopes, then push the
complete envelope; under `except`: push the error envelope.  Returns the
outcome of the call itself (it always returns `None`) together with the
final queue contents. -/
def process_coroutine (stream_type : String) (gen : StreamGen)
    (queue : List JVal) : PyResult Unit × List JVal :=
  let q1 := put_in_progress_loop stream_type gen.chunks queue
  match gen.failMsg with
  | none => (.ret (), q1 ++ [complete_envelope stream_type])
  | some m => (.ret (), q1 ++ [error_envelope stream_type m])

/-- Structural test for an in-progress envelope: keys exactly `type`,
`content`, `status` in order, with status text `in_progress`. -/
def is_in_progress_envelope : JVal → Bool
  | .jobj [(k1, _), (k2, _), (k3, .jstr s)] =>
    k1 == "type" && k2 == "content" && k3 == "status" && s == "in_progress"
  | _ => false

/-- Structural test for a complete envelope: keys exactly `type`, `chunk`,
`status` in order, a null chunk, status text `complete`. -/
def is_complete_envelope : JVal → Bool
  | .jobj [(k1, _), (k2, .jnull), (k3, .jstr s)] =>
    k1 == "type" && k2 == "chunk" && k3 == "status" && s == "complete"
  | _ => false

/-- Structural test for an error envelope: keys exactly `type`, `chunk`,
`status`, `error` in order, a null chunk, status text `error`, and a string
error message. -/
def is_error_envelope : JVal → Bool
  | .jobj [(k1, _), (k2, .jnull), (k3, .jstr s), (k4, .jstr _)] =>
    k1 == "type" && k2 == "chunk" && k3 == "status" && s == "error" && k4 == "error"
  | _ => false

/-- Number of error envelopes among the queued messages. -/
def count_error_envelopes (msgs : List JVal) : Nat :=
  msgs.countP (fun m => is_error_envelope m)

/-- A concrete parser oracle for instantiating theorems at concrete inputs:
it recognises the single text left behind by fence stripping in the demo
response and rejects everything else. -/
def fj_demo : FromJson := fun s =>
  if s = " payload " then .ok (.jobj [("questions", .jarr [])])
  else .error ("invalid JSON: " ++ s)

/-- A concrete shape oracle for instantiating theorems at concrete inputs. -/
def schema_demo : Schema :=
  { schemaName := "QuizQuestionsSchema",
    model_validate_dump := fun j =>
      match j with
      | .jobj [("questions", .jarr xs)] => .ok [("questions", .jarr xs)]
      | _ => .error "validation error" }

/-- A concrete provider response whose text is fenced well-formed JSON for
`fj_demo` and `schema_demo`. -/
def az_demo : AnalyzeOutcome := .ok ⟨"```json payload ```"⟩

/-- The value `_prompt_llm` produces from `az_demo` under the demo oracles. -/
def raw_demo : PromptRet := .mapping [("questions", JVal.jarr [])]

/-- A concrete well-formed `chapters` argument: one record with `title` and
`summary`. -/
def ch_demo : PyVal :=
  .vlist [.vdict [("title", .vstr "t"), ("summary", .vstr "s")]]

/-- A concrete provider gist result. -/
def gist_demo : GistResult := { title := "t", hashtags := ["h"], topics := ["x"] }

/-- Helper: the streaming loop appends one in-progress envelope per chunk,
in emission order. -/
theorem put_in_progress_loop_eq (ty : String) (cs : List String) :
    ∀ q : List JVal,
      put_in_progress_loop ty cs q = q ++ cs.map (in_progress_envelope ty) := by
  induction cs with
  | nil => intro q; simp [put_in_progress_loop]
  | cons c cs ih => intro q; simp [put_in_progress_loop, ih]

/-- Helper: a chapter line is produced only from a dict carrying both the
`title` and the `summary` key. -/
theorem chapter_line_ok_shape (c : PyVal) (l : String)
    (h : chapter_line c = .ok l) :
    ∃ kvs, c = PyVal.vdict kvs ∧
      (List.lookup "title" kvs).isSome ∧ (List.lookup "summary" kvs).isSome := by
  cases c with
  | vdict kvs =>
    refine ⟨kvs, rfl, ?_, ?_⟩
    · cases ht : List.lookup "title" kvs with
      | none => simp [chapter_line, py_subscript, ht] at h
      | some t => simp
    · cases ht : List.lookup "title" kvs with
      | none => simp [chapter_line, py_subscript, ht] at h
      | some t =>
        cases hs : List.lookup "summary" kvs with
        | none => simp [chapter_line, py_subscript, ht, hs] at h
        | some s => simp
  | vnone => simp [chapter_line, py_subscript] at h
  | vbool b => simp [chapter_line, py_subscript] at h
  | vint n => simp [chapter_line, py_subscript] at h
  | vstr s => simp [chapter_line, py_subscript] at h
  | vlist xs => simp [chapter_line, py_subscript] at h

/-- Helper: when the whole comprehension succeeds, every chapter record is a
dict carrying both required keys. -/
theorem chapter_lines_ok_shape :
    ∀ (xs : List PyVal) (ls : List String), chapter_lines xs = .ok ls →
      ∀ c ∈ xs, ∃ kvs, c = PyVal.vdict kvs ∧
        (List.lookup "title" kvs).isSome ∧ (List.lookup "summary" kvs).isSome := by
  intro xs
  induction xs with
  | nil => simp
  | cons c cs ih =>
    intro ls h
    cases hc : chapter_line c with
    | error e => simp [chapter_lines, hc] at h
    | ok l =>
      cases hcs : chapter_lines cs with
      | error e => simp [chapter_lines, hc, hcs] at h
      | ok ls2 =>
        intro d hd
        rcases List.mem_cons.mp hd with rfl | hdm
        · exact chapter_line_ok_shape d l hc
        · exact ih ls2 hcs d hdm

/-- C1: for every provider response whose text is well-formed JSON (possibly
wrapped in markdown code fences) that validates against the given shape,
`_prompt_llm` returns the plain mapping equal to the parsed, validated
content — the `model_dump` of the validated data. -/
theorem prompt_llm_wellformed_returns_validated_mapping
    (fj : FromJson) (schema : Schema) (resp : AnalyzeResponse)
    (parsed : JVal) (dump : List (String × JVal))
    (hparse : fj (cleaned_data_string resp.data) = .ok parsed)
    (hvalid : schema.model_validate_dump parsed = .ok dump) :
    (prompt_llm fj schema (.ok resp)).result = .ret (.mapping dump) := by
  simp [prompt_llm, hparse, hvalid]

/-- Witness for C1 at a concrete fenced response and concrete oracles. -/
theorem prompt_llm_wellformed_returns_validated_mapping_witness :
    (prompt_llm fj_demo schema_demo (.ok ⟨"```json payload ```"⟩)).result =
      .ret (.mapping [("questions", JVal.jarr [])]) :=
  prompt_llm_wellformed_returns_validated_mapping fj_demo schema_demo
    ⟨"```json payload ```"⟩ (.jobj [("questions", .jarr [])])
    [("questions", JVal.jarr [])] rfl rfl

/-- C2: for every provider response whose text fails permissive parsing or
fails shape validation, `_prompt_llm` returns without raising: it returns
the raw provider response object and logs an error line. -/
theorem prompt_llm_malformed_returns_raw_response
    (fj : FromJson) (schema : Schema) (resp : AnalyzeResponse)
    (hbad : (∃ e, fj (cleaned_data_string resp.data) = .error e) ∨
            (∃ parsed e, fj (cleaned_data_string resp.data) = .ok parsed ∧
               schema.model_validate_dump parsed = .error e)) :
    (prompt_llm fj schema (.ok resp)).result = .ret (.raw resp) ∧
    (prompt_llm fj schema (.ok resp)).logged ≠ [] := by
  rcases hbad with ⟨e, he⟩ | ⟨parsed, e, hp, hv⟩
  · simp [prompt_llm, he]
  · simp [prompt_llm, hp, hv]

/-- Witness for C2 at a concrete malformed response. -/
theorem prompt_llm_malformed_returns_raw_response_witness :
    (prompt_llm fj_demo schema_demo (.ok ⟨"not json"⟩)).result =
      .ret (.raw ⟨"not json"⟩) ∧
    (prompt_llm fj_demo schema_demo (.ok ⟨"not json"⟩)).logged ≠ [] :=
  prompt_llm_malformed_returns_raw_response fj_demo schema_demo ⟨"not json"⟩
    (Or.inl ⟨"invalid JSON: not json", rfl⟩)

/-- C10: if the provider analyze call inside `_prompt_llm` itself raises, so
that the local `response` is never bound, the fallback `return response` in
the except branch raises `NameError` instead of returning a value. -/
theorem prompt_llm_provider_raise_gives_nameerror
    (fj : FromJson) (schema : Schema) (m : String) :
    (prompt_llm fj schema (.raises m)).result =
      .raise ⟨"NameError", "name response is not defined"⟩ := by
  rfl

/-- C5: whenever the underlying provider call raises, `generate_summary` and
`generate_gist` propagate a failure to the caller, re-raising a generic
error carrying the original message. -/
theorem generate_summary_gist_reraise_on_provider_failure
    (st : HandlerState) (m : String) :
    (generate_summary st (.raises m)).1 =
      .raise ⟨"Exception", "Error generating summary: " ++ m⟩ ∧
    (generate_gist st (.raises m)).1 =
      .raise ⟨"Exception", "Error generating gist: " ++ m⟩ :=
  ⟨rfl, rfl⟩

/-- C4: when the provider yields its chunks and completes normally the
queue receives exactly one in-progress envelope per chunk, in emission
order, followed by exactly one complete envelope; when the provider raises
after its chunks, the queue receives the in-progress envelopes followed by
exactly one error envelope and nothing further; already-queued messages are
never withdrawn. -/
theorem process_coroutine_queue_contents
    (ty : String) (chunks : List String) (q : List JVal) :
    ((process_coroutine ty ⟨chunks, none⟩ q).2 =
       q ++ chunks.map (in_progress_envelope ty) ++ [complete_envelope ty]) ∧
    (∀ m, (process_coroutine ty ⟨chunks, some m⟩ q).2 =
       q ++ chunks.map (in_progress_envelope ty) ++ [error_envelope ty m]) := by
  constructor
  · simp [process_coroutine, put_in_progress_loop_eq]
  · intro m; simp [process_coroutine, put_in_progress_loop_eq]

/-- C7: every message the streaming adapter pushes is in exactly one of the
three envelope states: in-progress (keys `type`, `content`, `status` with
status `in_progress`, carrying an emitted chunk), complete (keys `type`,
`chunk`, `status` with a null chunk and status `complete`), or error (keys
`type`, `chunk`, `status`, `error` with a null chunk, status `error` and
the exception message). -/
theorem process_coroutine_messages_well_formed
    (ty : String) (gen : StreamGen) (m : JVal)
    (hm : m ∈ (process_coroutine ty gen []).2) :
    ((∃ c, c ∈ gen.chunks ∧ m = in_progress_envelope ty c) ∧
       is_in_progress_envelope m = true ∧ is_complete_envelope m = false ∧
       is_error_envelope m = false) ∨
    (gen.failMsg = none ∧ m = complete_envelope ty ∧
       is_in_progress_envelope m = false ∧ is_complete_envelope m = true ∧
       is_error_envelope m = false) ∨
    (∃ e, gen.failMsg = some e ∧ m = error_envelope ty e ∧
       is_in_progress_envelope m = false ∧ is_complete_envelope m = false ∧
       is_error_envelope m = true) := by
  obtain ⟨cs, fm⟩ := gen
  cases fm with
  | none =>
    have hq : (process_coroutine ty ⟨cs, none⟩ []).2 =
        cs.map (in_progress_envelope ty) ++ [complete_envelope ty] := by
      simp [process_coroutine, put_in_progress_loop_eq]
    rw [hq] at hm
    rcases List.mem_append.mp hm with h1 | h2
    · obtain ⟨c, hc, rfl⟩ := List.mem_map.mp h1
      exact Or.inl ⟨⟨c, hc, rfl⟩, rfl, rfl, rfl⟩
    · rw [List.mem_singleton] at h2
      subst h2
      exact Or.inr (Or.inl ⟨rfl, rfl, rfl, rfl, rfl⟩)
  | some e =>
    have hq : (process_coroutine ty ⟨cs, some e⟩ []).2 =
        cs.map (in_progress_envelope ty) ++ [error_envelope ty e] := by
      simp [process_coroutine, put_in_progress_loop_eq]
    rw [hq] at hm
    rcases List.mem_append.mp hm with h1 | h2
    · obtain ⟨c, hc, rfl⟩ := List.mem_map.mp h1
      exact Or.inl ⟨⟨c, hc, rfl⟩, rfl, rfl, rfl⟩
    · rw [List.mem_singleton] at h2
      subst h2
      exact Or.inr (Or.inr ⟨e, rfl, rfl, rfl, rfl, rfl⟩)

/-- Witness for C7 at a concrete one-chunk stream. -/
theorem process_coroutine_messages_well_formed_witness :
    ((∃ c, c ∈ (StreamGen.mk ["a"] none).chunks ∧
        in_progress_envelope "t" "a" = in_progress_envelope "t" c) ∧
       is_in_progress_envelope (in_progress_envelope "t" "a") = true ∧
       is_complete_envelope (in_progress_envelope "t" "a") = false ∧
       is_error_envelope (in_progress_envelope "t" "a") = false) ∨
    ((StreamGen.mk ["a"] none).failMsg = none ∧
       in_progress_envelope "t" "a" = complete_envelope "t" ∧
       is_in_progress_envelope (in_progress_envelope "t" "a") = false ∧
       is_complete_envelope (in_progress_envelope "t" "a") = true ∧
       is_error_envelope (in_progress_envelope "t" "a") = false) ∨
    (∃ e, (StreamGen.mk ["a"] none).failMsg = some e ∧
       in_progress_envelope "t" "a" = error_envelope "t" e ∧
       is_in_progress_envelope (in_progress_envelope "t" "a") = false ∧
       is_complete_envelope (in_progress_envelope "t" "a") = false ∧
       is_error_envelope (in_progress_envelope "t" "a") = true) :=
  process_coroutine_messages_well_formed "t" ⟨["a"], none⟩
    (in_progress_envelope "t" "a") (List.mem_cons_self _ _)

/-- C8: the streaming adapter never raises into the caller — it always
returns normally — and an exception during iteration is converted into
exactly one error envelope on the queue (none is pushed on a clean run). -/
theorem process_coroutine_fails_open
    (ty : String) (gen : StreamGen) (q : List JVal) :
    (process_coroutine ty gen q).1 = PyResult.ret () ∧
    count_error_envelopes (process_coroutine ty gen q).2 =
      count_error_envelopes q +
        (match gen.failMsg with | none => 0 | some _ => 1) := by
  obtain ⟨cs, fm⟩ := gen
  have hmap : count_error_envelopes (cs.map (in_progress_envelope ty)) = 0 := by
    induction cs with
    | nil => rfl
    | cons c cs ih =>
      have hflag : is_error_envelope (in_progress_envelope ty c) = false := rfl
      simp only [List.map_cons, count_error_envelopes, List.countP_cons, hflag] at ih ⊢
      simpa using ih
  cases fm with
  | none =>
    refine ⟨rfl, ?_⟩
    have hq : (process_coroutine ty ⟨cs, none⟩ q).2 =
        q ++ cs.map (in_progress_envelope ty) ++ [complete_envelope ty] := by
      simp [process_coroutine, put_in_progress_loop_eq]
    have hflag : is_error_envelope (complete_envelope ty) = false := rfl
    rw [hq]
    simp only [count_error_envelopes, List.countP_append, List.countP_cons,
      List.countP_nil, hflag] at hmap ⊢
    simp [hmap]
  | some e =>
    refine ⟨rfl, ?_⟩
    have hq : (process_coroutine ty ⟨cs, some e⟩ q).2 =
        q ++ cs.map (in_progress_envelope ty) ++ [error_envelope ty e] := by
      simp [process_coroutine, put_in_progress_loop_eq]
    have hflag : is_error_envelope (error_envelope ty e) = true := rfl
    rw [hq]
    simp only [count_error_envelopes, List.countP_append, List.countP_cons,
      List.countP_nil, hflag] at hmap ⊢
    simp [hmap]

/-- C3: with an empty list, a non-list, or `None`, quiz generation raises
the precondition error and the provider is never called; conversely the
provider is called only when `chapters` is a non-empty list of dict records
each carrying the `title` and `summary` keys. -/
theorem generate_quiz_questions_precondition_guard
    (st : HandlerState) (fj : FromJson) (schema : Schema) (az : AnalyzeOutcome)
    (chapters : PyVal) :
    ((chapters = PyVal.vlist [] ∨ is_list_value chapters = false ∨
        chapters = PyVal.vnone) →
      (generate_quiz_questions st chapters fj schema az).result =
        .raise ⟨"Exception", "Chapters must be a non-empty list"⟩ ∧
      (generate_quiz_questions st chapters fj schema az).providerCalled = false) ∧
    ((generate_quiz_questions st chapters fj schema az).providerCalled = true →
      ∃ xs, chapters = PyVal.vlist xs ∧ xs ≠ [] ∧
        ∀ c ∈ xs, ∃ kvs, c = PyVal.vdict kvs ∧
          (List.lookup "title" kvs).isSome ∧ (List.lookup "summary" kvs).isSome) := by
  constructor
  · intro h
    have hguard : (!truthy chapters || !is_list_value chapters ||
        py_len chapters == 0) = true := by
      rcases h with rfl | hnl | rfl
      · rfl
      · simp [hnl]
      · rfl
    rw [generate_quiz_questions, if_pos hguard]
    exact ⟨rfl, rfl⟩
  · intro hpc
    cases hguard : (!truthy chapters || !is_list_value chapters ||
        py_len chapters == 0) with
    | true =>
      rw [generate_quiz_questions, if_pos hguard] at hpc
      simp at hpc
    | false =>
      have hparts := hguard
      simp only [Bool.or_eq_false_iff, Bool.not_eq_false', beq_eq_false_iff_ne,
        ne_eq] at hparts
      obtain ⟨⟨htr, hlist⟩, hlen⟩ := hparts
      obtain ⟨xs, rfl⟩ : ∃ xs, chapters = PyVal.vlist xs := by
        cases chapters <;> simp [is_list_value] at hlist ⊢
      have hne : xs ≠ [] := by
        intro hxs
        exact hlen (by simp [py_len, hxs])
      rw [generate_quiz_questions, if_neg (by simp [hguard])] at hpc
      cases hcl : chapter_lines xs with
      | error e => simp [py_list_items, hcl] at hpc
      | ok ls => exact ⟨xs, rfl, hne, chapter_lines_ok_shape xs ls hcl⟩

/-- Witness for C3: the empty list raises before any provider call, and a
well-formed singleton list reaches the provider. -/
theorem generate_quiz_questions_precondition_guard_witness :
    ((generate_quiz_questions init_state (PyVal.vlist []) fj_demo schema_demo
        az_demo).result =
      .raise ⟨"Exception", "Chapters must be a non-empty list"⟩ ∧
     (generate_quiz_questions init_state (PyVal.vlist []) fj_demo schema_demo
        az_demo).providerCalled = false) ∧
    (∃ xs, ch_demo = PyVal.vlist xs ∧ xs ≠ [] ∧
      ∀ c ∈ xs, ∃ kvs, c = PyVal.vdict kvs ∧
        (List.lookup "title" kvs).isSome ∧ (List.lookup "summary" kvs).isSome) :=
  ⟨(generate_quiz_questions_precondition_guard init_state fj_demo schema_demo
      az_demo (PyVal.vlist [])).1 (Or.inl rfl),
   (generate_quiz_questions_precondition_guard init_state fj_demo schema_demo
      az_demo ch_demo).2 rfl⟩

/-- C6: evaluation of the claimed fail-open contract at the failing input
where the provider analyze call raises.  Contrary to the claim, each of the
five methods then propagates a `NameError` to its caller: the except block
references its raw local, which is unbound exactly when `_prompt_llm`
raised. -/
theorem generate_methods_raise_nameerror_on_provider_failure :
    (generate_chapters init_state fj_demo schema_demo (.raises "boom")).result =
      .raise ⟨"NameError", "name raw_chapters is not defined"⟩ ∧
    (generate_key_takeaways init_state fj_demo schema_demo (.raises "boom")).result =
      .raise ⟨"NameError", "name raw_key_takeaways is not defined"⟩ ∧
    (generate_pacing_recommendations init_state fj_demo schema_demo
        (.raises "boom")).result =
      .raise ⟨"NameError", "name raw_pacing_recommendations is not defined"⟩ ∧
    (generate_engagement init_state fj_demo schema_demo (.raises "boom")).result =
      .raise ⟨"NameError", "name raw_engagement is not defined"⟩ ∧
    (generate_quiz_questions init_state ch_demo fj_demo schema_demo
        (.raises "boom")).result =
      .raise ⟨"NameError", "name raw_quiz_questions is not defined"⟩ :=
  ⟨rfl, rfl, rfl, rfl, rfl⟩

/-- C9 counterexample: `generate_summary` succeeds yet assigns no cache
field at all — in particular `self.summary` stays `None` and the whole
state is unchanged — refuting the claim that every successful
`generate_<feature>` call assigns its result to its cache field. -/
theorem generate_summary_success_assigns_no_cache_field :
    (generate_summary init_state (.ok "hello")).1 =
      .ret (.jobj [("summary", .jstr "hello")]) ∧
    (generate_summary init_state (.ok "hello")).2 = init_state ∧
    (generate_summary init_state (.ok "hello")).2.summary = none :=
  ⟨rfl, rfl, rfl⟩

/-- C9 amended: each of the chapters, key-takeaways, pacing, quiz and
engagement generators, when it succeeds, assigns its result to exactly its
corresponding cache field and leaves every other cache field unchanged;
`generate_gist` assigns exactly `title`, `hashtags` and `topics`; and
`generate_summary` assigns no cache field, leaving the state unchanged. -/
theorem generate_cache_field_frame
    (st : HandlerState) (fj : FromJson) (schema : Schema) (az : AnalyzeOutcome)
    (chapters : PyVal) (raw : PromptRet) (s : String) (g : GistResult) :
    ((generate_chapters st fj schema az).result = .ret raw →
      (generate_chapters st fj schema az).state =
        { st with chapters := some raw }) ∧
    ((generate_key_takeaways st fj schema az).result = .ret raw →
      (generate_key_takeaways st fj schema az).state =
        { st with key_takeaways := some raw }) ∧
    ((generate_pacing_recommendations st fj schema az).result = .ret raw →
      (generate_pacing_recommendations st fj schema az).state =
        { st with pacing_recommendations := some raw }) ∧
    ((generate_engagement st fj schema az).result = .ret raw →
      (generate_engagement st fj schema az).state =
        { st with engagement := some raw }) ∧
    ((generate_quiz_questions st chapters fj schema az).result = .ret raw →
      (generate_quiz_questions st chapters fj schema az).state =
        { st with quiz_questions := some raw }) ∧
    ((generate_summary st (.ok s)).2 = st) ∧
    ((generate_gist st (.ok g)).2 =
      { st with title := some g.title, hashtags := some g.hashtags,
                topics := some g.topics }) := by
  refine ⟨?_, ?_, ?_, ?_, ?_, rfl, rfl⟩
  · cases hp : (prompt_llm fj schema az).result with
    | ret v => intro h; simp [generate_chapters, hp] at h ⊢; simp [h]
    | raise e => intro h; simp [generate_chapters, hp] at h
  · cases hp : (prompt_llm fj schema az).result with
    | ret v => intro h; simp [generate_key_takeaways, hp] at h ⊢; simp [h]
    | raise e => intro h; simp [generate_key_takeaways, hp] at h
  · cases hp : (prompt_llm fj schema az).result with
    | ret v => intro h; simp [generate_pacing_recommendations, hp] at h ⊢; simp [h]
    | raise e => intro h; simp [generate_pacing_recommendations, hp] at h
  · cases hp : (prompt_llm fj schema az).result with
    | ret v => intro h; simp [generate_engagement, hp] at h ⊢; simp [h]
    | raise e => intro h; simp [generate_engagement, hp] at h
  · intro h
    cases hguard : (!truthy chapters || !is_list_value chapters ||
        py_len chapters == 0) with
    | true =>
      rw [generate_quiz_questions, if_pos hguard] at h
      simp at h
    | false =>
      rw [generate_quiz_questions, if_neg (by simp [hguard])] at h ⊢
      cases hcl : chapter_lines (py_list_items chapters) with
      | error e => simp [hcl] at h
      | ok ls =>
        cases hp : (prompt_llm fj schema az).result with
        | ret v => simp [hcl, hp] at h ⊢; simp [h]
        | raise e => simp [hcl, hp] at h

/-- Witness for the amended C9 at concrete successful runs of all seven
generators. -/
theorem generate_cache_field_frame_witness :
    (generate_chapters init_state fj_demo schema_demo az_demo).state =
      { init_state with chapters := some raw_demo } ∧
    (generate_key_takeaways init_state fj_demo schema_demo az_demo).state =
      { init_state with key_takeaways := some raw_demo } ∧
    (generate_pacing_recommendations init_state fj_demo schema_demo az_demo).state =
      { init_state with pacing_recommendations := some raw_demo } ∧
    (generate_engagement init_state fj_demo schema_demo az_demo).state =
      { init_state with engagement := some raw_demo } ∧
    (generate_quiz_questions init_state ch_demo fj_demo schema_demo az_demo).state =
      { init_state with quiz_questions := some raw_demo } ∧
    (generate_summary init_state (.ok "hello")).2 = init_state ∧
    (generate_gist init_state (.ok gist_demo)).2 =
      { init_state with title := some gist_demo.title,
                        hashtags := some gist_demo.hashtags,
                        topics := some gist_demo.topics } := by
  obtain ⟨h1, h2, h3, h4, h5, h6, h7⟩ :=
    generate_cache_field_frame init_state fj_demo schema_demo az_demo ch_demo
      raw_demo "hello" gist_demo
  exact ⟨h1 rfl, h2 rfl, h3 rfl, h4 rfl, h5 rfl, h6, h7⟩
